import Mathlib

/-!
Verification development for the linuxblaster_control repository.

Shallow embedding of:
  * the little-endian 32-bit float byte codec (f32::to_le_bytes / from_le_bytes,
    modelled on the bit pattern as a natural number below 2^32);
  * the static feature registry of src/features.rs (FeatureId, value_kind,
    dsp_address, dependencies, dependents);
  * the packet codec create_payload and the managed engine set_feature /
    set_slider of src/lib.rs;
  * the passive protocol decoder decode_sb / parse_data_fragment of
    sniffer/src/main.rs;
  * the DSP read confirmation loop dsp_get of src/features.rs.

IEEE-754 arithmetic (the single division by 100.0 in create_payload) is not
re-implemented bit-for-bit; instead the division is a function parameter
div100 : Nat → Nat over bit patterns, universally quantified in every theorem
that involves it, so each theorem holds in particular for the true IEEE-754
single-precision division by 100.
-/

-- ─── 32-bit little-endian float byte codec ──────────────────────────────────

/-- Model of f32::to_le_bytes over the 32-bit pattern: the four bytes of
bits, least significant first (f32 values are identified with their bit
patterns, natural numbers below 2^32). -/
def f32ToLeBytes (bits : Nat) : List Nat :=
  [bits % 256, bits / 256 % 256, bits / 65536 % 256, bits / 16777216 % 256]

/-- Model of f32::from_le_bytes: recombine four little-endian bytes into the
32-bit pattern. -/
def f32FromLeBytes (bs : List Nat) : Nat :=
  bs.getD 0 0 + bs.getD 1 0 * 256 + bs.getD 2 0 * 65536 + bs.getD 3 0 * 16777216

theorem f32FromLeBytes_toLeBytes (bits : Nat) (h : bits < 4294967296) :
    f32FromLeBytes (f32ToLeBytes bits) = bits := by
  simp only [f32ToLeBytes, f32FromLeBytes, List.getD, List.get?, Option.getD_some]
  omega

-- ─── Feature registry (src/features.rs) ─────────────────────────────────────

/-- FeatureId from src/features.rs: identity of one controllable property. -/
inductive FeatureId where
  | SbxMaster | ScoutMode
  | Output
  | SurroundToggle | SurroundLevel
  | DialogPlusToggle | DialogPlusLevel
  | SmartVolToggle | SmartVolLevel | SmartVolMode
  | CrystalizerToggle | CrystalizerLevel
  | BassToggle | BassLevel
  | SurroundDistance
  | EqToggle | EqPreAmp
  | Eq31Hz | Eq62Hz | Eq125Hz | Eq250Hz | Eq500Hz
  | Eq1kHz | Eq2kHz | Eq4kHz | Eq8kHz | Eq16kHz
  deriving DecidableEq, Repr

/-- ValueKind from src/features.rs.  The Ranged bounds are the float literals
of the source (all integral), carried as integers. -/
inductive ValueKind where
  | Toggle
  | Percentage
  | Ranged (min max : Int)
  | Preset (labels : List String)
  deriving DecidableEq, Repr

namespace FeatureId

/-- FeatureId::value_kind from src/features.rs. -/
def value_kind : FeatureId → ValueKind
  | SbxMaster | ScoutMode
  | SurroundToggle | DialogPlusToggle | SmartVolToggle
  | CrystalizerToggle | BassToggle | EqToggle => .Toggle
  | SurroundLevel | DialogPlusLevel | SmartVolLevel
  | CrystalizerLevel | BassLevel => .Percentage
  | EqPreAmp => .Ranged (-6) 6
  | Eq31Hz | Eq62Hz | Eq125Hz | Eq250Hz | Eq500Hz
  | Eq1kHz | Eq2kHz | Eq4kHz | Eq8kHz | Eq16kHz => .Ranged (-12) 12
  | SurroundDistance => .Ranged 10 300
  | SmartVolMode => .Preset ["Normal", "Loud", "Night"]
  | Output => .Preset ["Speakers", "Headphones"]

/-- FeatureId::dsp_address from src/features.rs: the (family, feature_id)
pair for 0x96 DSP features; none for features using other protocols. -/
def dsp_address : FeatureId → Option (Nat × Nat)
  | SurroundToggle => some (0x96, 0x00)
  | SurroundLevel => some (0x96, 0x01)
  | DialogPlusToggle => some (0x96, 0x02)
  | DialogPlusLevel => some (0x96, 0x03)
  | SmartVolToggle => some (0x96, 0x04)
  | SmartVolLevel => some (0x96, 0x05)
  | SmartVolMode => some (0x96, 0x06)
  | CrystalizerToggle => some (0x96, 0x07)
  | CrystalizerLevel => some (0x96, 0x08)
  | EqToggle => some (0x96, 0x09)
  | EqPreAmp => some (0x96, 0x0a)
  | Eq31Hz => some (0x96, 0x0b)
  | Eq62Hz => some (0x96, 0x0c)
  | Eq125Hz => some (0x96, 0x0d)
  | Eq250Hz => some (0x96, 0x0e)
  | Eq500Hz => some (0x96, 0x0f)
  | Eq1kHz => some (0x96, 0x10)
  | Eq2kHz => some (0x96, 0x11)
  | Eq4kHz => some (0x96, 0x12)
  | Eq8kHz => some (0x96, 0x13)
  | Eq16kHz => some (0x96, 0x14)
  | SurroundDistance => some (0x96, 0x17)
  | BassToggle => some (0x96, 0x18)
  | BassLevel => some (0x96, 0x19)
  | _ => none

/-- FeatureId::dependencies from src/features.rs: features that must be ON
for this feature to work. -/
def dependencies : FeatureId → List FeatureId
  | SbxMaster | ScoutMode | Output => []
  | SurroundToggle | DialogPlusToggle | SmartVolToggle
  | CrystalizerToggle | BassToggle | EqToggle => [SbxMaster]
  | SurroundLevel | SurroundDistance => [SbxMaster, SurroundToggle]
  | DialogPlusLevel => [SbxMaster, DialogPlusToggle]
  | SmartVolLevel | SmartVolMode => [SbxMaster, SmartVolToggle]
  | CrystalizerLevel => [SbxMaster, CrystalizerToggle]
  | BassLevel => [SbxMaster, BassToggle]
  | EqPreAmp
  | Eq31Hz | Eq62Hz | Eq125Hz | Eq250Hz | Eq500Hz
  | Eq1kHz | Eq2kHz | Eq4kHz | Eq8kHz | Eq16kHz => [SbxMaster, EqToggle]

/-- FeatureId::dependents from src/features.rs: features whose cached state
should be re-queried after this feature changes. -/
def dependents : FeatureId → List FeatureId
  | SbxMaster =>
      [SurroundToggle, SurroundLevel, SurroundDistance,
       DialogPlusToggle, DialogPlusLevel,
       SmartVolToggle, SmartVolLevel, SmartVolMode,
       CrystalizerToggle, CrystalizerLevel,
       BassToggle, BassLevel,
       EqToggle, EqPreAmp,
       Eq31Hz, Eq62Hz, Eq125Hz, Eq250Hz, Eq500Hz,
       Eq1kHz, Eq2kHz, Eq4kHz, Eq8kHz, Eq16kHz]
  | SurroundToggle => [SurroundLevel, SurroundDistance]
  | DialogPlusToggle => [DialogPlusLevel]
  | SmartVolToggle => [SmartVolLevel, SmartVolMode]
  | CrystalizerToggle => [CrystalizerLevel]
  | BassToggle => [BassLevel]
  | EqToggle =>
      [EqPreAmp,
       Eq31Hz, Eq62Hz, Eq125Hz, Eq250Hz, Eq500Hz,
       Eq1kHz, Eq2kHz, Eq4kHz, Eq8kHz, Eq16kHz]
  | _ => []

end FeatureId

instance : Fintype FeatureId :=
  ⟨⟨{.SbxMaster, .ScoutMode, .Output,
     .SurroundToggle, .SurroundLevel,
     .DialogPlusToggle, .DialogPlusLevel,
     .SmartVolToggle, .SmartVolLevel, .SmartVolMode,
     .CrystalizerToggle, .CrystalizerLevel,
     .BassToggle, .BassLevel,
     .SurroundDistance,
     .EqToggle, .EqPreAmp,
     .Eq31Hz, .Eq62Hz, .Eq125Hz, .Eq250Hz, .Eq500Hz,
     .Eq1kHz, .Eq2kHz, .Eq4kHz, .Eq8kHz, .Eq16kHz}, by decide⟩,
   by intro x; cases x <;> decide⟩

/-- C7: dependency-graph invariants of the static registry: the dependents
lists are the structural transpose of the dependency lists, and no FeatureId
appears in its own dependency or dependents set. -/
theorem claim_C7 :
    (∀ a b : FeatureId,
        b ∈ a.dependencies ↔ a ∈ b.dependents) ∧
    (∀ a : FeatureId, a ∉ a.dependencies ∧ a ∉ a.dependents) := by
  constructor
  · decide
  · decide

-- ─── Passive protocol decoder (sniffer/src/main.rs) ─────────────────────────

/-- Name of a decoded feature entry.  The source renders it as a string
(dsp_feature_name for family 0x96, a hex id otherwise, a question mark
placeholder for a truncated entry); every rendering is injective in the id,
so the model keeps the id itself under a constructor per rendering family. -/
inductive FeatName where
  | dsp (id : Nat)
  | generic (id : Nat)
  | placeholder
  deriving DecidableEq, Repr

/-- FeatureEntry from sniffer/src/main.rs: family byte, rendered name, and
the decoded little-endian f32 (as its bit pattern); value none for the
truncated placeholder entry.  The family byte is kept raw (the source stores
its hex rendering).  The placeholder entry of the source has family and name
both a question mark; it is the only entry with value none. -/
structure FeatureEntry where
  family : Nat
  name : FeatName
  value : Option Nat
  deriving DecidableEq, Repr

/-- BulkRangeEntry from sniffer/src/main.rs; max, min, step are decoded
f32 bit patterns. -/
structure BulkRangeEntry where
  family : Nat
  id : Nat
  max : Nat
  min : Nat
  step : Nat
  deriving DecidableEq, Repr

/-- GlobalProfileWrite feature-name rendering of the source
(0x01 to SBX Master, 0x02 to Scout Mode, anything else Unknown). -/
inductive GpName where
  | sbxMaster
  | scoutMode
  | unknownGp
  deriving DecidableEq, Repr

/-- Output route rendering of the source output_str closure
(0x02 Speakers, 0x04 Headphones, anything else the raw byte). -/
inductive OutName where
  | speakers
  | headphones
  | rawMode (b : Nat)
  deriving DecidableEq, Repr

/-- DAC filter rendering of the source filter_str closure. -/
inductive FilterName where
  | fastMinPhase
  | slowMinPhase
  | nonOversampling
  | fastLinPhase
  | slowLinPhase
  | rawFilter (b : Nat)
  deriving DecidableEq, Repr

/-- SbCommand from sniffer/src/main.rs: one constructor per variant.
String fields of the source that are hex or lossy-utf8 renderings of byte
slices are carried as the raw byte lists (the renderings are injective). -/
inductive SbCommand where
  | deviceAck (echoedCmd : Nat)
  | deviceIdentifyRequest
  | deviceIdentifyResponse (flags : Nat)
  | ping
  | getFirmwareStringRequest (typ : Nat)
  | getFirmwareStringResponse (firmware : List Nat)
  | getSerialRequest
  | getSerialResponse (serial : List Nat)
  | statusRequest (family : Nat) (featureId : Nat)
  | statusResponse (features : List FeatureEntry)
  | writeSingleFeature (feature : FeatureEntry)
  | bulkRangeDumpRequest
  | bulkRangeDump (count : Nat) (entries : List BulkRangeEntry)
  | getHardwareIdRequest
  | getHardwareIdResponse (hwId : Nat)
  | globalProfileRequest
  | globalProfileResponse (sbxMaster scoutMode eqEnable : Bool)
  | globalProfileWrite (feature : GpName) (enabled : Bool)
  | outputSelectReadRequest
  | outputSelectReadResponse (output : OutName)
  | outputSelectWrite (output : OutName)
  | outputSelectEnumerate (raw : List Nat)
  | getDspVersionRequest
  | getDspVersionResponse (version : List Nat)
  | directModeSet (enabled : Bool)
  | directModeCommit
  | directModeReadRequest
  | directModeReadResponse (raw : List Nat)
  | directModeUnsupported (sub : Nat)
  | capabilities (sub : Nat)
  | gainConfigRequest
  | gainConfigResponse (gain : Nat)
  | dacFilterReadRequest
  | dacFilterReadResponse (filter : FilterName)
  | dacFilterWrite (filter : FilterName)
  | dacFilterEnumerateRequest
  | dacFilterEnumerateResponse (raw : List Nat)
  | notification (sub : Nat)
  | unknown (cmd : Nat) (raw : List Nat)
  deriving DecidableEq, Repr

/-- DataFragment from sniffer/src/main.rs. -/
inductive DataFragment where
  | other (raw : List Nat)
  | sbProtocol (cmd : SbCommand)
  deriving DecidableEq, Repr

/-- The closure g of decode_sb: d.get(i).copied().unwrap_or(0). -/
def gByte (d : List Nat) (i : Nat) : Nat := d.getD i 0

/-- The closure tail of decode_sb: the bytes from from.min(d.len()) on
(the source renders them in hex; the model keeps the bytes). -/
def tailFrom (d : List Nat) (from_ : Nat) : List Nat :=
  d.drop (min from_ d.length)

/-- Rust slice d[3..(3+len).min(d.len())], which panics (none) exactly when
the upper bound falls below 3, i.e. when d has fewer than 3 bytes. -/
def sliceD3 (d : List Nat) (len : Nat) : Option (List Nat) :=
  if 3 ≤ min (3 + len) d.length then
    some ((d.drop 3).take (min (3 + len) d.length - 3))
  else none

/-- dsp_feature_name / the id-rendering of feature_raw, collapsed to the
constructor choice of FeatName (family 0x96 gets the DSP name table, other
families the generic id rendering). -/
def featureName (family id : Nat) : FeatName :=
  if family = 0x96 then .dsp id else .generic id

/-- feature_raw from sniffer/src/main.rs. -/
def feature_raw (family id : Nat) (f32Bytes : List Nat) : FeatureEntry :=
  { family := family, name := featureName family id,
    value := some (f32FromLeBytes f32Bytes) }

/-- feature_at from sniffer/src/main.rs: one feature entry at d[off..off+6],
or the placeholder when it does not fit. -/
def feature_at (d : List Nat) (off : Nat) : FeatureEntry :=
  if off + 6 > d.length then
    { family := 0, name := .placeholder, value := none }
  else
    feature_raw (d.getD off 0) (d.getD (off + 1) 0)
      [d.getD (off + 2) 0, d.getD (off + 3) 0, d.getD (off + 4) 0, d.getD (off + 5) 0]

/-- The StatusResponse record loop of decode_sb: count iterations, pushing a
6-byte entry and advancing only while it fits in the buffer. -/
def statusFeatures (d : List Nat) : Nat → Nat → List FeatureEntry
  | 0, _ => []
  | n + 1, off =>
      if off + 6 ≤ d.length then
        feature_at d off :: statusFeatures d n (off + 6)
      else
        statusFeatures d n off

/-- Rust slice d[i..i+4] into from_le_bytes inside the bulk loop; unlike the
status loop it indexes without its own bound check, so the model makes the
access fallible. -/
def f32At (d : List Nat) (i : Nat) : Option Nat :=
  if i + 4 ≤ d.length then some (f32FromLeBytes ((d.drop i).take 4)) else none

/-- The BulkRangeDump record loop of decode_sb: count iterations, pushing a
14-byte entry (family, id, max, min, step) and advancing only while it fits. -/
def bulkEntries (d : List Nat) : Nat → Nat → Option (List BulkRangeEntry)
  | 0, _ => some []
  | n + 1, off =>
      if off + 14 ≤ d.length then do
        let fam ← d.get? off
        let id ← d.get? (off + 1)
        let mx ← f32At d (off + 2)
        let mn ← f32At d (off + 6)
        let st ← f32At d (off + 10)
        let rest ← bulkEntries d n (off + 14)
        some (⟨fam, id, mx, mn, st⟩ :: rest)
      else
        bulkEntries d n off

/-- The output_str closure of the 0x2c branch. -/
def outputStr (mode : Nat) : OutName :=
  if mode = 0x02 then .speakers
  else if mode = 0x04 then .headphones
  else .rawMode mode

/-- The filter_str closure of the 0x6c branch. -/
def filterStr (f : Nat) : FilterName :=
  if f = 0x01 then .fastMinPhase
  else if f = 0x02 then .slowMinPhase
  else if f = 0x03 then .nonOversampling
  else if f = 0x04 then .fastLinPhase
  else if f = 0x05 then .slowLinPhase
  else .rawFilter f

/-- decode_sb from sniffer/src/main.rs, with d[0] the 0x5a magic, cmd = d[1],
len = d[2].  The Rust match arms are translated in order into an if-chain;
the fallible results (none) model exactly the slice expressions that could
panic in Rust. -/
def decode_sb (cmd len : Nat) (d : List Nat) : Option SbCommand :=
  if cmd = 0x02 then some (.deviceAck (gByte d 3))
  else if cmd = 0x05 then
    if len = 0 then some .deviceIdentifyRequest
    else some (.deviceIdentifyResponse (gByte d 3))
  else if cmd = 0x06 then some .ping
  else if cmd = 0x07 then
    if len = 1 then some (.getFirmwareStringRequest (gByte d 3))
    else do
      let bs ← sliceD3 d len
      some (.getFirmwareStringResponse bs)
  else if cmd = 0x10 then
    if len = 0 then some .getSerialRequest
    else do
      let bs ← sliceD3 d len
      some (.getSerialResponse bs)
  else if cmd = 0x11 then
    if len = 3 then some (.statusRequest (gByte d 4) (gByte d 5))
    else some (.statusResponse (statusFeatures d (gByte d 3) 5))
  else if cmd = 0x12 then
    if len = 7 then
      let feature :=
        if 11 ≤ d.length then
          feature_raw (gByte d 4) (gByte d 5)
            [gByte d 7, gByte d 8, gByte d 9, gByte d 10]
        else { family := 0, name := .placeholder, value := none }
      some (.writeSingleFeature feature)
    else some (.unknown cmd (tailFrom d 0))
  else if cmd = 0x15 then
    if len = 1 then some .bulkRangeDumpRequest
    else do
      let count := gByte d 4
      let entries ← bulkEntries d count 5
      some (.bulkRangeDump (count % 256) entries)
  else if cmd = 0x20 then
    if len = 0 then some .getHardwareIdRequest
    else some (.getHardwareIdResponse (gByte d 3))
  else if cmd = 0x26 then
    if gByte d 3 = 0x08 ∧ len = 3 then some .globalProfileRequest
    else if gByte d 3 = 0x08 then
      let bitmask := gByte d 6
      some (.globalProfileResponse
        (bitmask &&& 0x01 ≠ 0) (bitmask &&& 0x02 ≠ 0) (bitmask &&& 0x04 ≠ 0))
    else if gByte d 3 = 0x07 then
      let feature :=
        if gByte d 4 = 0x01 then GpName.sbxMaster
        else if gByte d 4 = 0x02 then GpName.scoutMode
        else GpName.unknownGp
      some (.globalProfileWrite feature (gByte d 6 ≠ 0))
    else some (.unknown 0x26 (tailFrom d 3))
  else if cmd = 0x2c then
    if gByte d 3 = 0x01 ∧ len = 1 then some .outputSelectReadRequest
    else if gByte d 3 = 0x01 then some (.outputSelectReadResponse (outputStr (gByte d 4)))
    else if gByte d 3 = 0x00 then some (.outputSelectWrite (outputStr (gByte d 4)))
    else if gByte d 3 = 0x02 then some (.outputSelectEnumerate (tailFrom d 4))
    else some (.unknown 0x2c (tailFrom d 3))
  else if cmd = 0x30 then
    if len = 0 then some .getDspVersionRequest
    else do
      let bs ← sliceD3 d len
      some (.getDspVersionResponse bs)
  else if cmd = 0x39 then
    if len = 3 ∧ gByte d 3 = 0x00 then some (.directModeSet (gByte d 5 = 0x01))
    else if gByte d 3 = 0x01 ∧ len ≤ 2 then some .directModeCommit
    else if len = 1 ∧ gByte d 3 = 0x02 then some .directModeReadRequest
    else if gByte d 3 = 0x02 then do
      let bs ← sliceD3 d len
      some (.directModeReadResponse bs)
    else if gByte d 3 = 0x04 ∨ gByte d 3 = 0x05 then
      some (.directModeUnsupported (gByte d 3))
    else some (.unknown 0x39 (tailFrom d 3))
  else if cmd = 0x3a then some (.capabilities (gByte d 3))
  else if cmd = 0x3c then
    if len = 2 then some .gainConfigRequest
    else if len = 4 then some (.gainConfigResponse (gByte d 5))
    else some (.unknown 0x3c (tailFrom d 3))
  else if cmd = 0x6c then
    if gByte d 3 = 0x01 ∧ len = 1 then some .dacFilterReadRequest
    else if gByte d 3 = 0x01 then some (.dacFilterReadResponse (filterStr (gByte d 4)))
    else if gByte d 3 = 0x00 then some (.dacFilterWrite (filterStr (gByte d 4)))
    else if gByte d 3 = 0x02 ∧ len = 1 then some .dacFilterEnumerateRequest
    else if gByte d 3 = 0x02 then some (.dacFilterEnumerateResponse (tailFrom d 4))
    else some (.unknown 0x6c (tailFrom d 3))
  else if cmd = 0x6e then some (.notification (gByte d 3))
  else some (.unknown cmd (tailFrom d 0))

/-- parse_data_fragment from sniffer/src/main.rs, over the payload bytes d
that start at the magic byte (the source slices them off the captured URB
first).  Fewer than 3 bytes or a wrong magic byte become the Other fragment. -/
def parse_data_fragment (d : List Nat) : Option DataFragment :=
  if d.length < 3 ∨ d.getD 0 0 ≠ 0x5a then some (.other d)
  else (decode_sb (d.getD 1 0) (d.getD 2 0) d).map .sbProtocol

/-- The command families decode_sb matches on; every other command byte
falls through to the catch-all Unknown arm. -/
def knownCmds : List Nat :=
  [0x02, 0x05, 0x06, 0x07, 0x10, 0x11, 0x12, 0x15,
   0x20, 0x26, 0x2c, 0x30, 0x39, 0x3a, 0x3c, 0x6c, 0x6e]

theorem sliceD3_isSome (d : List Nat) (len : Nat) (h : 3 ≤ d.length) :
    (sliceD3 d len).isSome := by
  simp only [sliceD3]
  rw [if_pos (by omega)]
  rfl

theorem bulkEntries_length (d : List Nat) (n : Nat) :
    ∀ off, ∃ es, bulkEntries d n off = some es ∧
      es.length = min n ((d.length - off) / 14) := by
  induction n with
  | zero =>
      intro off
      exact ⟨[], rfl, by simp⟩
  | succ n ih =>
      intro off
      rw [bulkEntries]
      split
      · rename_i h
        obtain ⟨es, hes, hlen⟩ := ih (off + 14)
        rw [List.get?_eq_get (by omega : off < d.length),
          List.get?_eq_get (by omega : off + 1 < d.length)]
        simp only [f32At, if_pos (by omega : off + 2 + 4 ≤ d.length),
          if_pos (by omega : off + 6 + 4 ≤ d.length),
          if_pos (by omega : off + 10 + 4 ≤ d.length), Option.some_bind, hes]
        refine ⟨_, rfl, ?_⟩
        simp only [List.length_cons, hlen]
        omega
      · rename_i h
        obtain ⟨es, hes, hlen⟩ := ih off
        exact ⟨es, hes, by rw [hlen]; omega⟩

theorem bulkEntries_isSome (d : List Nat) (n off : Nat) :
    (bulkEntries d n off).isSome := by
  obtain ⟨es, hes, _⟩ := bulkEntries_length d n off
  simp [hes]

theorem decode_sb_isSome (cmd len : Nat) (d : List Nat) (h : 3 ≤ d.length) :
    (decode_sb cmd len d).isSome := by
  obtain ⟨s3, hs3⟩ := Option.isSome_iff_exists.mp (sliceD3_isSome d len h)
  obtain ⟨es, hes⟩ := Option.isSome_iff_exists.mp (bulkEntries_isSome d (gByte d 4) 5)
  rw [decode_sb]
  by_cases h1 : cmd = 0x02
  · rw [if_pos h1]; rfl
  rw [if_neg h1]
  by_cases h2 : cmd = 0x05
  · rw [if_pos h2]; split_ifs <;> rfl
  rw [if_neg h2]
  by_cases h3 : cmd = 0x06
  · rw [if_pos h3]; rfl
  rw [if_neg h3]
  by_cases h4 : cmd = 0x07
  · rw [if_pos h4]; split_ifs <;> simp [hs3]
  rw [if_neg h4]
  by_cases h5 : cmd = 0x10
  · rw [if_pos h5]; split_ifs <;> simp [hs3]
  rw [if_neg h5]
  by_cases h6 : cmd = 0x11
  · rw [if_pos h6]; split_ifs <;> rfl
  rw [if_neg h6]
  by_cases h7 : cmd = 0x12
  · rw [if_pos h7]; split_ifs <;> rfl
  rw [if_neg h7]
  by_cases h8 : cmd = 0x15
  · rw [if_pos h8]; split_ifs <;> simp [hes]
  rw [if_neg h8]
  by_cases h9 : cmd = 0x20
  · rw [if_pos h9]; split_ifs <;> rfl
  rw [if_neg h9]
  by_cases h10 : cmd = 0x26
  · rw [if_pos h10]; split_ifs <;> rfl
  rw [if_neg h10]
  by_cases h11 : cmd = 0x2c
  · rw [if_pos h11]; split_ifs <;> rfl
  rw [if_neg h11]
  by_cases h12 : cmd = 0x30
  · rw [if_pos h12]; split_ifs <;> simp [hs3]
  rw [if_neg h12]
  by_cases h13 : cmd = 0x39
  · rw [if_pos h13]; split_ifs <;> simp [hs3]
  rw [if_neg h13]
  by_cases h14 : cmd = 0x3a
  · rw [if_pos h14]; rfl
  rw [if_neg h14]
  by_cases h15 : cmd = 0x3c
  · rw [if_pos h15]; split_ifs <;> rfl
  rw [if_neg h15]
  by_cases h16 : cmd = 0x6c
  · rw [if_pos h16]; split_ifs <;> rfl
  rw [if_neg h16]
  by_cases h17 : cmd = 0x6e
  · rw [if_pos h17]; rfl
  rw [if_neg h17]
  rfl

/-- C5: decoder totality.  Conjuncts: (1) parse_data_fragment yields a
fragment for every byte sequence; (2) decode_sb yields a command for every
payload of at least 3 bytes (every shorter payload is diverted to the Other
fragment before decode_sb is reached), so no access inside the decoder can
read out of bounds; (3) every command byte outside the known families falls
through to the catch-all Unknown variant carrying the raw bytes. -/
theorem claim_C5 :
    (∀ d : List Nat, (parse_data_fragment d).isSome) ∧
    (∀ (cmd len : Nat) (d : List Nat), 3 ≤ d.length →
        (decode_sb cmd len d).isSome) ∧
    (∀ (cmd len : Nat) (d : List Nat), cmd ∉ knownCmds →
        decode_sb cmd len d = some (.unknown cmd d)) := by
  refine ⟨?_, fun cmd len d h => decode_sb_isSome cmd len d h, ?_⟩
  · intro d
    rw [parse_data_fragment]
    split
    · rfl
    · rename_i h
      rw [not_or, not_lt] at h
      obtain ⟨c, hc⟩ :=
        Option.isSome_iff_exists.mp (decode_sb_isSome (d.getD 1 0) (d.getD 2 0) d h.1)
      rw [hc]
      rfl
  · intro cmd len d h
    simp only [knownCmds, List.mem_cons, List.not_mem_nil, or_false, not_or] at h
    obtain ⟨h1, h2, h3, h4, h5, h6, h7, h8, h9, h10, h11, h12, h13, h14, h15,
      h16, h17⟩ := h
    rw [decode_sb]
    simp only [if_neg h1, if_neg h2, if_neg h3, if_neg h4, if_neg h5, if_neg h6,
      if_neg h7, if_neg h8, if_neg h9, if_neg h10, if_neg h11, if_neg h12,
      if_neg h13, if_neg h14, if_neg h15, if_neg h16, if_neg h17]
    simp [tailFrom]

/-- Witness for C5 at concrete inputs: a ping fragment parses, a minimal
3-byte status payload decodes, and an unknown command byte 0x99 produces the
Unknown catch-all carrying the raw bytes. -/
theorem claim_C5_witness :
    (parse_data_fragment [0x5a, 0x06, 0x01, 0x01]).isSome ∧
    (decode_sb 0x11 3 [0x5a, 0x11, 0x03]).isSome ∧
    decode_sb 0x99 5 [1, 2, 3] = some (.unknown 0x99 [1, 2, 3]) :=
  ⟨claim_C5.1 _, claim_C5.2.1 0x11 3 _ (by decide),
   claim_C5.2.2 0x99 5 [1, 2, 3] (by decide)⟩

/-- C6: bulk-range-dump truncation.  Decoding a 0x15 payload that is not the
one-byte request yields a BulkRangeDump whose entry list stops after
min(declared count at byte 4, number of complete 14-byte records that fit
after the 5-byte header); the decode always succeeds, i.e. no record read
goes past the end of the buffer. -/
theorem claim_C6 (len : Nat) (d : List Nat) (h : len ≠ 1) :
    ∃ es, decode_sb 0x15 len d = some (.bulkRangeDump (gByte d 4 % 256) es) ∧
      es.length = min (gByte d 4) ((d.length - 5) / 14) := by
  obtain ⟨es, hes, hlen⟩ := bulkEntries_length d (gByte d 4) 5
  refine ⟨es, ?_, hlen⟩
  rw [decode_sb]
  simp [h, hes]

/-- Witness for C6: a dump declaring 10 records over a buffer that holds
only two complete 14-byte records decodes to exactly two entries. -/
theorem claim_C6_witness :
    ∃ es, decode_sb 0x15 0x20 ([0x5a, 0x15, 0x20, 0x00, 10] ++ List.replicate 30 1)
        = some (.bulkRangeDump 10 es) ∧
      es.length = 2 := by
  obtain ⟨es, hes, hlen⟩ :=
    claim_C6 0x20 ([0x5a, 0x15, 0x20, 0x00, 10] ++ List.replicate 30 1) (by decide)
  exact ⟨es, by simpa using hes, by simpa using hlen⟩

-- ─── Packet codec and managed engine (src/lib.rs) ───────────────────────────

/-- Format from src/lib.rs: the addressing scheme tag of a feature. -/
inductive Format where
  | Global (id : Nat)
  | SBX (id : Nat)
  | RGB (id : Nat)
  deriving DecidableEq, Repr

/-- FeatureType from src/lib.rs: a toggle or a slider; the slider value is
the f32 bit pattern. -/
inductive FeatureType where
  | Toggle (b : Bool)
  | Slider (bits : Nat)
  deriving DecidableEq, Repr

/-- FeatureType::as_bool from src/lib.rs. -/
def FeatureType.as_bool : FeatureType → Option Bool
  | .Toggle b => some b
  | .Slider _ => none

/-- Feature from src/lib.rs. -/
structure Feature where
  name : String
  id : Format
  value : FeatureType
  dependencies : Option (List String)
  deriving DecidableEq, Repr

/-- FEATURES from src/lib.rs: the static registry of the managed engine.
Slider starting values are the bit pattern of 0.0. -/
def FEATURES : List Feature :=
  [⟨"SBX", .Global 0x01, .Toggle false, none⟩,
   ⟨"Scout Mode", .Global 0x02, .Toggle false, none⟩,
   ⟨"Surround", .SBX 0x00, .Toggle false, some ["SBX"]⟩,
   ⟨"Surround Slider", .SBX 0x01, .Slider 0, some ["SBX", "Surround"]⟩,
   ⟨"Dialog+", .SBX 0x02, .Toggle false, some ["SBX"]⟩,
   ⟨"Dialog+ Slider", .SBX 0x03, .Slider 0, some ["SBX", "Dialog+"]⟩,
   ⟨"Smart Volume", .SBX 0x04, .Toggle false, some ["SBX"]⟩,
   ⟨"Smart Volume Slider", .SBX 0x05, .Slider 0, some ["SBX", "Smart Volume"]⟩,
   ⟨"Smart Volume Special", .SBX 0x06, .Slider 0, some ["SBX", "Smart Volume"]⟩,
   ⟨"Crystalizer", .SBX 0x07, .Toggle false, some ["SBX"]⟩,
   ⟨"Crystalizer Slider", .SBX 0x08, .Slider 0, some ["SBX", "Crystalizer"]⟩,
   ⟨"Equalizer", .SBX 0x09, .Toggle false, some ["SBX"]⟩,
   ⟨"EQ Pre-Amp", .SBX 0x0a, .Slider 0, some ["SBX", "Equalizer"]⟩,
   ⟨"EQ 31Hz", .SBX 0x0b, .Slider 0, some ["SBX", "Equalizer"]⟩,
   ⟨"EQ 62Hz", .SBX 0x0c, .Slider 0, some ["SBX", "Equalizer"]⟩,
   ⟨"EQ 125Hz", .SBX 0x0d, .Slider 0, some ["SBX", "Equalizer"]⟩,
   ⟨"EQ 250Hz", .SBX 0x0e, .Slider 0, some ["SBX", "Equalizer"]⟩,
   ⟨"EQ 500Hz", .SBX 0x0f, .Slider 0, some ["SBX", "Equalizer"]⟩,
   ⟨"EQ 1kHz", .SBX 0x10, .Slider 0, some ["SBX", "Equalizer"]⟩,
   ⟨"EQ 2kHz", .SBX 0x11, .Slider 0, some ["SBX", "Equalizer"]⟩,
   ⟨"EQ 4kHz", .SBX 0x12, .Slider 0, some ["SBX", "Equalizer"]⟩,
   ⟨"EQ 8kHz", .SBX 0x13, .Slider 0, some ["SBX", "Equalizer"]⟩,
   ⟨"EQ 16kHz", .SBX 0x14, .Slider 0, some ["SBX", "Equalizer"]⟩,
   ⟨"Bass", .SBX 0x18, .Toggle false, some ["SBX"]⟩,
   ⟨"Bass Slider", .SBX 0x19, .Slider 0, some ["SBX", "Bass"]⟩]

/-- The comparison value > 0.0 of the source over the f32 bit pattern:
positive iff the pattern is a strictly positive number or plus infinity
(patterns 1 to 0x7F800000); zeros, negatives and NaNs compare false. -/
def f32GtZero (bits : Nat) : Bool :=
  decide (0 < bits ∧ bits ≤ 0x7F800000)

/-- Payload from src/lib.rs: the 65-byte data and commit reports
(byte 0 the HID report id, byte 1 the 0x5a magic). -/
structure Payload where
  data : List Nat
  commit : List Nat
  deriving DecidableEq, Repr

/-- create_payload from src/lib.rs.  div100 is the IEEE-754 single division
by 100.0 over bit patterns, kept as a parameter (see the file header). -/
def create_payload (div100 : Nat → Nat) (id : Format) (value : Nat) : Payload :=
  match id with
  | .Global gid =>
      { data := [0x00, 0x5a, 0x26, 0x05, 0x07, gid, 0x00,
                 if f32GtZero value then 0x01 else 0x00] ++ List.replicate 57 0,
        commit := [0x00, 0x5a, 0x26, 0x03, 0x08, 0xff, 0xff] ++ List.replicate 58 0 }
  | .SBX sid =>
      let effectiveValue := if 0x0a ≤ sid ∧ sid ≤ 0x14 then value else div100 value
      { data := [0x00, 0x5a, 0x12, 0x07, 0x01, 0x96, sid] ++
                  f32ToLeBytes effectiveValue ++ List.replicate 54 0,
        commit := [0x00, 0x5a, 0x11, 0x03, 0x01, 0x96, sid, 0x00, 0x00, 0x00, 0x00] ++
                  List.replicate 54 0 }
  | .RGB _ =>
      { data := [0x00, 0x5a] ++ List.replicate 63 0,
        commit := [0x00, 0x5a] ++ List.replicate 63 0 }

/-- Error kinds of the managed engine (io::ErrorKind values used by
src/lib.rs), plus the fuel marker of the shallow embedding (never reached at
the registry depth, which is at most 2). -/
inductive EngErr where
  | NotFound
  | InvalidInput
  | FuelExhausted
  deriving DecidableEq, Repr

deriving instance DecidableEq for Except

/-- Result of a managed engine call: completion status, the feature list
after the call (the mutated self.features), and the ordered list of
create_payload argument pairs of the call — one per transmitted
data-plus-commit packet pair, in transmission order. -/
abbrev EngResult := Except EngErr Unit × List Feature × List (Format × Nat)

/-- BlasterXG6::get_feature from src/lib.rs (the feature part; its second
tuple component is the dependencies field of the same entry). -/
def get_feature (st : List Feature) (name : String) : Option Feature :=
  st.find? (fun f => f.name = name)

/-- BlasterXG6::get_dependents from src/lib.rs: names of the features whose
dependency list contains the given name, in registry order. -/
def get_dependents (st : List Feature) (name : String) : List String :=
  (st.filter (fun f => (f.dependencies.getD []).contains name)).map (fun f => f.name)

/-- BlasterXG6::update_feature_value from src/lib.rs: replace the value of
the first feature with the given name; none when absent. -/
def update_feature_value : List Feature → String → FeatureType → Option (List Feature)
  | [], _, _ => none
  | f :: rest, name, v =>
      if f.name = name then some ({ f with value := v } :: rest)
      else (update_feature_value rest name v).map (f :: ·)

/-- The f32 bit pattern of 100.0 (the value_byte 100 cast to f32 in
set_feature). -/
def bitsF32_100 : Nat := 0x42C80000

/-- The f32 bit pattern of 1.0. -/
def bitsF32_1 : Nat := 0x3F800000

/-- The f32 bit pattern of 3.0. -/
def bitsF32_3 : Nat := 0x40400000

/-- The f32 bit pattern of 5.0. -/
def bitsF32_5 : Nat := 0x40A00000

/-- The dependency loop of set_feature (the try_for_each over dependencies
when the feature is being turned on): skip a dependency that resolves to a
toggle already on, otherwise recursively enable it, aborting on error; sf is
the recursive set_feature call. -/
def dep_loop_on (sf : String → Option Bool → List Feature → EngResult) :
    List String → List Feature → EngResult
  | [], st => (.ok (), st, [])
  | dep :: rest, st =>
      if (get_feature st dep).map (fun f => f.value.as_bool) = some (some true) then
        dep_loop_on sf rest st
      else
        match sf dep (some true) st with
        | (.error e, st1, ev1) => (.error e, st1, ev1)
        | (.ok _, st1, ev1) =>
            let (status, st2, ev2) := dep_loop_on sf rest st1
            (status, st2, ev1 ++ ev2)

/-- The dependent loop of set_feature (when the feature is being turned
off): disable every dependent that resolves to a toggle not already off,
ignoring errors of the recursive calls; sf is the recursive set_feature
call. -/
def dependents_loop_off (sf : String → Option Bool → List Feature → EngResult) :
    List String → List Feature → List Feature × List (Format × Nat)
  | [], st => (st, [])
  | dep :: rest, st =>
      match get_feature st dep with
      | some f =>
          match f.value with
          | .Toggle _ =>
              if f.value.as_bool = some false then dependents_loop_off sf rest st
              else
                let (_, st1, ev1) := sf dep (some false) st
                let (st2, ev2) := dependents_loop_off sf rest st1
                (st2, ev1 ++ ev2)
          | .Slider _ => dependents_loop_off sf rest st
      | none => dependents_loop_off sf rest st

/-- BlasterXG6::set_feature from src/lib.rs, with a structural fuel counter
for the recursion over the acyclic dependency graph (depth at most 2 in this
registry, so any fuel of 3 or more behaves identically). -/
def set_feature_rec : Nat → String → Option Bool → List Feature → EngResult
  | 0, _, _, st => (.error .FuelExhausted, st, [])
  | fuel + 1, name, value, st =>
      match get_feature st name with
      | none => (.error .NotFound, st, [])
      | some f =>
          match f.value with
          | .Slider _ => (.error .InvalidInput, st, [])
          | .Toggle current =>
              let finalValue := match value with
                | some v => v
                | none => !current
              let (status, st1, ev1) : EngResult :=
                if finalValue then
                  match f.dependencies with
                  | none => (.ok (), st, [])
                  | some deps => dep_loop_on (set_feature_rec fuel) deps st
                else
                  let (st1, ev1) :=
                    dependents_loop_off (set_feature_rec fuel) (get_dependents st name) st
                  (.ok (), st1, ev1)
              match status with
              | .error e => (.error e, st1, ev1)
              | .ok _ =>
                  let wr : Format × Nat := (f.id, if finalValue then bitsF32_100 else 0)
                  match update_feature_value st1 name (.Toggle finalValue) with
                  | none => (.error .NotFound, st1, ev1 ++ [wr])
                  | some st2 => (.ok (), st2, ev1 ++ [wr])

/-- The engine fuel of the model: any value above the registry dependency
depth (2) gives the same results everywhere below. -/
def engineFuel : Nat := 8

/-- The public BlasterXG6::set_feature. -/
def set_feature (name : String) (value : Option Bool) (st : List Feature) : EngResult :=
  set_feature_rec engineFuel name value st

/-- The dependency loop of set_slider: recursively enable a dependency
exactly when it resolves to a toggle cached off, aborting on error. -/
def slider_dep_loop (sf : String → Option Bool → List Feature → EngResult) :
    List String → List Feature → EngResult
  | [], st => (.ok (), st, [])
  | dep :: rest, st =>
      if (get_feature st dep).map (fun f => f.value.as_bool) = some (some false) then
        match sf dep (some true) st with
        | (.error e, st1, ev1) => (.error e, st1, ev1)
        | (.ok _, st1, ev1) =>
            let (status, st2, ev2) := slider_dep_loop sf rest st1
            (status, st2, ev1 ++ ev2)
      else slider_dep_loop sf rest st

/-- BlasterXG6::set_slider from src/lib.rs (value is the f32 bit pattern). -/
def set_slider (name : String) (value : Nat) (st : List Feature) : EngResult :=
  match get_feature st name with
  | none => (.error .NotFound, st, [])
  | some f =>
      match f.value with
      | .Toggle _ => (.error .InvalidInput, st, [])
      | .Slider _ =>
          let (status, st1, ev1) : EngResult :=
            match f.dependencies with
            | none => (.ok (), st, [])
            | some deps => slider_dep_loop (set_feature_rec engineFuel) deps st
          match status with
          | .error e => (.error e, st1, ev1)
          | .ok _ =>
              let wr : Format × Nat := (f.id, value)
              match update_feature_value st1 name (.Slider value) with
              | none => (.error .NotFound, st1, ev1 ++ [wr])
              | some st2 => (.ok (), st2, ev1 ++ [wr])

/-- The byte stream a list of engine write events puts on the wire: for each
create_payload argument pair, the data report then the commit report. -/
def transmittedBytes (div100 : Nat → Nat) (events : List (Format × Nat)) :
    List (List Nat) :=
  events.flatMap (fun e =>
    [(create_payload div100 e.1 e.2).data, (create_payload div100 e.1 e.2).commit])

theorem sbx_data_bytes (div100 : Nat → Nat) (i v : Nat) :
    ((create_payload div100 (.SBX i) v).data.drop 7).take 4 =
      f32ToLeBytes (if 0x0a ≤ i ∧ i ≤ 0x14 then v else div100 v) := rfl

/-- The expected echo of a generically addressed write, from the read-after-
write of src/features.rs dsp_get: a 64-byte status response
5a 11 08 01 00 family feature carrying the written f32 LE value (this is the
response to the commit report that create_payload pairs with every write). -/
def expectedEcho (family id : Nat) (valueBytes : List Nat) : List Nat :=
  [0x5a, 0x11, 0x08, 0x01, 0x00, family, id] ++ valueBytes ++ List.replicate 53 0

theorem decode_expectedEcho (id b0 b1 b2 b3 : Nat) :
    parse_data_fragment (expectedEcho 0x96 id [b0, b1, b2, b3]) =
      some (.sbProtocol (.statusResponse
        [{ family := 0x96, name := .dsp id,
           value := some (f32FromLeBytes [b0, b1, b2, b3]) }])) := rfl

/-- C1: round-trip of the generic-addressing codec.  For every feature byte
and every 32-bit value, the write packet of create_payload carries an
effective value (the value itself on the raw range 0x0a to 0x14, the
div-by-100 image elsewhere), the expected device echo of that packet decodes
through the passive decoder to exactly that effective value, bit-identical,
and on the raw range the effective value is the written value itself. -/
theorem claim_C1 (div100 : Nat → Nat) (id v : Nat)
    (hv : v < 4294967296)
    (hdiv : ∀ x, x < 4294967296 → div100 x < 4294967296) :
    parse_data_fragment
        (expectedEcho 0x96 id
          (((create_payload div100 (.SBX id) v).data.drop 7).take 4)) =
      some (.sbProtocol (.statusResponse
        [{ family := 0x96, name := .dsp id,
           value := some (if 0x0a ≤ id ∧ id ≤ 0x14 then v else div100 v) }])) ∧
    ((0x0a ≤ id ∧ id ≤ 0x14) →
      ((create_payload div100 (.SBX id) v).data.drop 7).take 4 = f32ToLeBytes v) := by
  have heff : (if 0x0a ≤ id ∧ id ≤ 0x14 then v else div100 v) < 4294967296 := by
    split
    · exact hv
    · exact hdiv v hv
  constructor
  · rw [sbx_data_bytes]
    rw [show f32ToLeBytes (if 0x0a ≤ id ∧ id ≤ 0x14 then v else div100 v) =
        [(if 0x0a ≤ id ∧ id ≤ 0x14 then v else div100 v) % 256,
         (if 0x0a ≤ id ∧ id ≤ 0x14 then v else div100 v) / 256 % 256,
         (if 0x0a ≤ id ∧ id ≤ 0x14 then v else div100 v) / 65536 % 256,
         (if 0x0a ≤ id ∧ id ≤ 0x14 then v else div100 v) / 16777216 % 256] from rfl]
    rw [decode_expectedEcho]
    rw [show ([(if 0x0a ≤ id ∧ id ≤ 0x14 then v else div100 v) % 256,
         (if 0x0a ≤ id ∧ id ≤ 0x14 then v else div100 v) / 256 % 256,
         (if 0x0a ≤ id ∧ id ≤ 0x14 then v else div100 v) / 65536 % 256,
         (if 0x0a ≤ id ∧ id ≤ 0x14 then v else div100 v) / 16777216 % 256] : List Nat) =
        f32ToLeBytes (if 0x0a ≤ id ∧ id ≤ 0x14 then v else div100 v) from rfl]
    rw [f32FromLeBytes_toLeBytes _ heff]
  · intro hid
    rw [sbx_data_bytes, if_pos hid]

/-- Witness for C1 at the 1 kHz EQ band address 0x10 and value 3.0
(bits 0x40400000), with div100 instantiated to the identity. -/
theorem claim_C1_witness :
    parse_data_fragment
        (expectedEcho 0x96 0x10
          (((create_payload (fun x => x) (.SBX 0x10) bitsF32_3).data.drop 7).take 4)) =
      some (.sbProtocol (.statusResponse
        [{ family := 0x96, name := .dsp 0x10,
           value := some (if 0x0a ≤ 0x10 ∧ 0x10 ≤ 0x14 then bitsF32_3
                          else (fun x : Nat => x) bitsF32_3) }])) ∧
    ((0x0a ≤ 0x10 ∧ 0x10 ≤ 0x14) →
      ((create_payload (fun x => x) (.SBX 0x10) bitsF32_3).data.drop 7).take 4 =
        f32ToLeBytes bitsF32_3) :=
  claim_C1 (fun x => x) 0x10 bitsF32_3 (by decide) (fun x hx => hx)

/-- dsp_set from src/features.rs: the 65-byte write report for the DSP
feature at (family, id); the f32 value is transmitted raw, with no scaling
(the read_ack that follows carries no value). -/
def dsp_set_payload (family id v : Nat) : List Nat :=
  [0x00, 0x5a, 0x12, 0x07, 0x01, family, id] ++ f32ToLeBytes v ++ List.replicate 54 0

theorem dsp_set_bytes (family id v : Nat) :
    ((dsp_set_payload family id v).drop 7).take 4 = f32ToLeBytes v := rfl

/-- C2: wire value scaling.  For a feature at DSP address (fam, i):
a Percentage-kind feature is written through create_payload as the UI value
divided by 100; a Ranged-kind feature that exists in the lib.rs registry (the
EQ pre-amp and the ten EQ bands) is written through create_payload raw; and
every Ranged-kind feature, the surround distance included, is written
through dsp_set raw, with no scaling anywhere. -/
theorem claim_C2 (div100 : Nat → Nat) (fid : FeatureId) (fam i v : Nat)
    (haddr : fid.dsp_address = some (fam, i)) :
    (fid.value_kind = .Percentage →
      ((create_payload div100 (.SBX i) v).data.drop 7).take 4 =
        f32ToLeBytes (div100 v)) ∧
    ((∃ mn mx, fid.value_kind = .Ranged mn mx) →
      Format.SBX i ∈ FEATURES.map (fun f => f.id) →
      ((create_payload div100 (.SBX i) v).data.drop 7).take 4 = f32ToLeBytes v) ∧
    ((∃ mn mx, fid.value_kind = .Ranged mn mx) →
      ((dsp_set_payload fam i v).drop 7).take 4 = f32ToLeBytes v) := by
  refine ⟨?_, ?_, fun _ => dsp_set_bytes fam i v⟩ <;>
    cases fid <;>
      simp_all [FeatureId.dsp_address, FeatureId.value_kind, sbx_data_bytes, FEATURES] <;>
        (obtain ⟨h1, h2⟩ := haddr; subst h2; simp)

/-- Witness for C2 at the Crystalizer level (Percentage, address 0x08) with
value 50.0 (bits 0x42480000) and div100 the identity: the wire bytes are the
div100 image; the Ranged conjuncts witnessed at the 1 kHz EQ band. -/
theorem claim_C2_witness :
    (FeatureId.CrystalizerLevel.value_kind = .Percentage →
      ((create_payload (fun x => x) (.SBX 0x08) 0x42480000).data.drop 7).take 4 =
        f32ToLeBytes ((fun x : Nat => x) 0x42480000)) ∧
    ((∃ mn mx, FeatureId.CrystalizerLevel.value_kind = .Ranged mn mx) →
      Format.SBX 0x08 ∈ FEATURES.map (fun f => f.id) →
      ((create_payload (fun x => x) (.SBX 0x08) 0x42480000).data.drop 7).take 4 =
        f32ToLeBytes 0x42480000) ∧
    ((∃ mn mx, FeatureId.CrystalizerLevel.value_kind = .Ranged mn mx) →
      ((dsp_set_payload 0x96 0x08 0x42480000).drop 7).take 4 =
        f32ToLeBytes 0x42480000) :=
  claim_C2 (fun x => x) .CrystalizerLevel 0x96 0x08 0x42480000 rfl

-- ─── DSP read confirmation loop (src/features.rs) ───────────────────────────

/-- MAX_READ_ATTEMPTS from src/features.rs. -/
def MAX_READ_ATTEMPTS : Nat := 30

/-- READ_TIMEOUT_MS from src/features.rs (the per-attempt read timeout). -/
def READ_TIMEOUT_MS : Nat := 500

/-- The 65-byte query report dsp_get transmits before polling. -/
def dsp_get_query (family id : Nat) : List Nat :=
  [0x00, 0x5a, 0x11, 0x03, 0x01, family, id] ++ List.replicate 58 0

/-- The match condition of the dsp_get poll loop: a response whose magic,
command family and generic address echo the query. -/
def respMatches (family id : Nat) (resp : List Nat) : Bool :=
  decide (resp.getD 0 0 = 0x5a ∧ resp.getD 1 0 = 0x11 ∧
          resp.getD 5 0 = family ∧ resp.getD 6 0 = id)

/-- The poll loop of dsp_get from src/features.rs over a stream of
read_packet results (none models a timed-out or failed read).  Returns the
pair (value returned to the caller, cache value after the call).  A matching
response updates the cache and is returned; exhausting the attempts returns
the 0.0 default and leaves the cache untouched. -/
def dsp_get_go (family id cached : Nat) :
    Nat → List (Option (List Nat)) → Nat × Nat
  | 0, _ => (0, cached)
  | n + 1, [] => dsp_get_go family id cached n []
  | n + 1, none :: rest => dsp_get_go family id cached n rest
  | n + 1, some resp :: rest =>
      if respMatches family id resp then
        let value := f32FromLeBytes ((resp.drop 7).take 4)
        (value, value)
      else dsp_get_go family id cached n rest

/-- dsp_get from src/features.rs: transmit the query, then poll up to
MAX_READ_ATTEMPTS times. -/
def dsp_get (family id cached : Nat) (reads : List (Option (List Nat))) :
    Nat × Nat :=
  dsp_get_go family id cached MAX_READ_ATTEMPTS reads

theorem dsp_get_go_exhausted (family id cached : Nat) :
    ∀ (n : Nat) (reads : List (Option (List Nat))),
      (∀ r ∈ reads.take n, ∀ resp, r = some resp →
          respMatches family id resp = false) →
      dsp_get_go family id cached n reads = (0, cached) := by
  intro n
  induction n with
  | zero => intro reads _; rfl
  | succ n ih =>
      intro reads hmiss
      match reads with
      | [] =>
          rw [dsp_get_go]
          exact ih [] (by simp)
      | none :: rest =>
          rw [dsp_get_go]
          exact ih rest fun r hr resp hresp =>
            hmiss r (by simp [List.take, hr]) resp hresp
      | some resp :: rest =>
          rw [dsp_get_go]
          rw [if_neg (by simp [hmiss (some resp) (by simp [List.take]) resp rfl])]
          exact ih rest fun r hr resp2 hresp =>
            hmiss r (by simp [List.take, hr]) resp2 hresp

/-- C8 counterexample: the claim that an exhausted confirmation loop returns
the last known cached value is false at a concrete input: with the cache
holding 5.0 and thirty empty reads, dsp_get returns 0.0, not 5.0. -/
theorem claim_C8_counterexample :
    ¬ (∀ (family id cached : Nat) (reads : List (Option (List Nat))),
        (∀ r ∈ reads.take MAX_READ_ATTEMPTS, ∀ resp, r = some resp →
            respMatches family id resp = false) →
        (dsp_get family id cached reads).1 = cached) := by
  intro h
  have h5 := h 0x96 0x10 bitsF32_5 (List.replicate 30 none)
    (by intro r hr resp hresp; simp [MAX_READ_ATTEMPTS] at hr; simp [hr] at hresp)
  exact absurd h5 (by decide)

/-- C8 amended: exhausting the confirmation loop (30 attempts of 500 ms
each, no matching response) is a soft failure: dsp_get neither aborts nor
raises an error; it returns the 0.0 default and leaves the cached value
untouched. -/
theorem claim_C8 (family id cached : Nat) (reads : List (Option (List Nat)))
    (hmiss : ∀ r ∈ reads.take MAX_READ_ATTEMPTS, ∀ resp, r = some resp →
        respMatches family id resp = false) :
    dsp_get family id cached reads = (0, cached) ∧
    MAX_READ_ATTEMPTS = 30 ∧ READ_TIMEOUT_MS = 500 :=
  ⟨dsp_get_go_exhausted family id cached MAX_READ_ATTEMPTS reads hmiss, rfl, rfl⟩

/-- Witness for the amended C8 at the 1 kHz EQ band with cache 5.0 and
thirty empty reads. -/
theorem claim_C8_witness :
    dsp_get 0x96 0x10 bitsF32_5 (List.replicate 30 none) = (0, bitsF32_5) ∧
    MAX_READ_ATTEMPTS = 30 ∧ READ_TIMEOUT_MS = 500 :=
  claim_C8 0x96 0x10 bitsF32_5 (List.replicate 30 none)
    (by intro r hr resp hresp; simp [MAX_READ_ATTEMPTS] at hr; simp [hr] at hresp)

-- ─── Managed set over the FeatureId registry ────────────────────────────────

/-- Modelled from the spec: the managed set_feature engine over the
features.rs FeatureId registry (the BlasterXG6 method that app.rs calls and
the features.rs doc comment describes) is not part of the sources under
verification; this definition follows spec section 4.4 steps 1 to 7 over the
real dependencies and dependents tables of src/features.rs.  The cache maps
each FeatureId to its f32 bit pattern; dev is the device oracle giving the
value a read returns.  Step 3 recursively enables dependencies whose cache is
not on; steps 4 and 5 are the write and its read-after-write confirmation;
step 6 refreshes every dependent; step 7 is the Output special case: a full
registry re-read.  The fuel bounds the recursion (registry depth at most
2). -/
def managedSet (dev : FeatureId → Nat) :
    Nat → FeatureId → Nat → (FeatureId → Nat) → (FeatureId → Nat)
  | 0, _, _, cache => cache
  | fuel + 1, target, _v, cache =>
      let cache1 := target.dependencies.foldl
        (fun c dep =>
          if c dep ≠ bitsF32_1 then managedSet dev fuel dep bitsF32_1 c else c)
        cache
      let cache2 := Function.update cache1 target (dev target)
      let cache3 := target.dependents.foldl
        (fun c dep => Function.update c dep (dev dep)) cache2
      if target = .Output then (fun f => dev f) else cache3

/-- C3: output-route cache invalidation.  After a managed set of the Output
feature, every feature's cached value equals the fresh device value (the
full registry re-read), not only Output's; by contrast a managed set of a
dependency-free non-Output feature (Scout Mode) leaves an unrelated
feature's cache untouched. -/
theorem claim_C3 (dev cache : FeatureId → Nat) (v : Nat) :
    (∀ f : FeatureId, managedSet dev 3 .Output v cache f = dev f) ∧
    managedSet dev 3 .ScoutMode v cache .BassLevel = cache .BassLevel := by
  constructor
  · intro f
    rfl
  · rfl

-- ─── Managed-engine theorems (src/lib.rs) ───────────────────────────────────

/-- An arbitrary cache state over the lib.rs registry: every toggle holds an
arbitrary Boolean, every slider an arbitrary bit pattern (the engine only
ever writes a value of the feature's own kind, so these are exactly the
states reachable from FEATURES). -/
def mkState (bSbx bScout bSur bDia bSv bCry bEq bBass : Bool)
    (sv : Nat → Nat) : List Feature :=
  [⟨"SBX", .Global 0x01, .Toggle bSbx, none⟩,
   ⟨"Scout Mode", .Global 0x02, .Toggle bScout, none⟩,
   ⟨"Surround", .SBX 0x00, .Toggle bSur, some ["SBX"]⟩,
   ⟨"Surround Slider", .SBX 0x01, .Slider (sv 0), some ["SBX", "Surround"]⟩,
   ⟨"Dialog+", .SBX 0x02, .Toggle bDia, some ["SBX"]⟩,
   ⟨"Dialog+ Slider", .SBX 0x03, .Slider (sv 1), some ["SBX", "Dialog+"]⟩,
   ⟨"Smart Volume", .SBX 0x04, .Toggle bSv, some ["SBX"]⟩,
   ⟨"Smart Volume Slider", .SBX 0x05, .Slider (sv 2), some ["SBX", "Smart Volume"]⟩,
   ⟨"Smart Volume Special", .SBX 0x06, .Slider (sv 3), some ["SBX", "Smart Volume"]⟩,
   ⟨"Crystalizer", .SBX 0x07, .Toggle bCry, some ["SBX"]⟩,
   ⟨"Crystalizer Slider", .SBX 0x08, .Slider (sv 4), some ["SBX", "Crystalizer"]⟩,
   ⟨"Equalizer", .SBX 0x09, .Toggle bEq, some ["SBX"]⟩,
   ⟨"EQ Pre-Amp", .SBX 0x0a, .Slider (sv 5), some ["SBX", "Equalizer"]⟩,
   ⟨"EQ 31Hz", .SBX 0x0b, .Slider (sv 6), some ["SBX", "Equalizer"]⟩,
   ⟨"EQ 62Hz", .SBX 0x0c, .Slider (sv 7), some ["SBX", "Equalizer"]⟩,
   ⟨"EQ 125Hz", .SBX 0x0d, .Slider (sv 8), some ["SBX", "Equalizer"]⟩,
   ⟨"EQ 250Hz", .SBX 0x0e, .Slider (sv 9), some ["SBX", "Equalizer"]⟩,
   ⟨"EQ 500Hz", .SBX 0x0f, .Slider (sv 10), some ["SBX", "Equalizer"]⟩,
   ⟨"EQ 1kHz", .SBX 0x10, .Slider (sv 11), some ["SBX", "Equalizer"]⟩,
   ⟨"EQ 2kHz", .SBX 0x11, .Slider (sv 12), some ["SBX", "Equalizer"]⟩,
   ⟨"EQ 4kHz", .SBX 0x12, .Slider (sv 13), some ["SBX", "Equalizer"]⟩,
   ⟨"EQ 8kHz", .SBX 0x13, .Slider (sv 14), some ["SBX", "Equalizer"]⟩,
   ⟨"EQ 16kHz", .SBX 0x14, .Slider (sv 15), some ["SBX", "Equalizer"]⟩,
   ⟨"Bass", .SBX 0x18, .Toggle bBass, some ["SBX"]⟩,
   ⟨"Bass Slider", .SBX 0x19, .Slider (sv 16), some ["SBX", "Bass"]⟩]

/-- Whether the cache of st holds the toggle named n as on (false for
sliders and for names absent from the registry). -/
def cachedOn (st : List Feature) (n : String) : Bool :=
  match get_feature st n with
  | some { value := .Toggle b, .. } => b
  | _ => false

/-- The protocol address of the feature named n in st. -/
def idOf (st : List Feature) (n : String) : Format :=
  match get_feature st n with
  | some f => f.id
  | none => .RGB 0

/-- update_feature_value with the unchanged state on a missing name. -/
def setValue (st : List Feature) (n : String) (v : FeatureType) : List Feature :=
  (update_feature_value st n v).getD st

/-- The write events a managed enabling set is expected to transmit for its
dependency list: one 100.0 write per dependency whose cached value is not
on, in registry (dependency-list) order. -/
def enableEvents (st : List Feature) (deps : List String) : List (Format × Nat) :=
  (deps.filter (fun d => cachedOn st d = false)).map (fun d => (idOf st d, bitsF32_100))

/-- The cache state after those dependency enables. -/
def enableState (st : List Feature) (deps : List String) : List Feature :=
  (deps.filter (fun d => cachedOn st d = false)).foldl
    (fun s d => setValue s d (.Toggle true)) st

/-- The off-cascade a managed disabling set is expected to transmit: one 0.0
write per dependent toggle cached on, in registry order. -/
def offCascade (st : List Feature) (n : String) : List String :=
  (get_dependents st n).filter (fun d => cachedOn st d)

/-- The statement of C4 for one registry feature over a state: an enabling
managed set (a slider write, or a toggle set to on) transmits first one
enable write per dependency cached off, in dependency-list order, then the
target's own write, and afterwards the cache holds the dependencies on and
the target at the written value. -/
def C4Prop (st : List Feature) (f : Feature) : Prop :=
  let deps := f.dependencies.getD []
  match f.value with
  | .Slider _ => ∀ v : Nat,
      set_slider f.name v st =
        (.ok (), setValue (enableState st deps) f.name (.Slider v),
         enableEvents st deps ++ [(f.id, v)])
  | .Toggle _ =>
      set_feature f.name (some true) st =
        (.ok (), setValue (enableState st deps) f.name (.Toggle true),
         enableEvents st deps ++ [(f.id, bitsF32_100)])

/-- The statement of C10 for one registry feature over a state: a managed
set of a toggle to off transmits first one 0.0 write per dependent toggle
cached on (each recursively processed), in registry order, then the target's
own 0.0 write, leaving those dependents and the target cached off; and an
argument-free set on a toggle cached on behaves like an explicit off. -/
def C10Prop (st : List Feature) (f : Feature) : Prop :=
  match f.value with
  | .Toggle _ =>
      (set_feature f.name (some false) st =
        (.ok (),
         setValue ((offCascade st f.name).foldl
             (fun s d => setValue s d (.Toggle false)) st)
           f.name (.Toggle false),
         (offCascade st f.name).map (fun d => (idOf st d, 0)) ++ [(f.id, 0)])) ∧
      (cachedOn st f.name = true →
        set_feature f.name none st = set_feature f.name (some false) st)
  | .Slider _ => True

set_option maxHeartbeats 16000000 in
/-- C4: dependency resolution before the target write, over every feature of
the registry and every cache state: an enabling managed set transmits one
enable write per dependency whose cached value is not on, in registry
(dependency-list) order, before the target's own write, and leaves the
dependencies on and the target at the written value; in particular the
scenario set_slider of the 1 kHz EQ band to 3.0 with the equalizer and
master toggles off enables master, then the equalizer, then writes the band,
leaving the band cached at 3.0 and both toggles on. -/
theorem claim_C4 :
    (∀ (bSbx bScout bSur bDia bSv bCry bEq bBass : Bool) (sv : Nat → Nat),
        ∀ f ∈ FEATURES,
          C4Prop (mkState bSbx bScout bSur bDia bSv bCry bEq bBass sv) f) ∧
    (set_slider "EQ 1kHz" bitsF32_3 FEATURES).1 = .ok () ∧
    (set_slider "EQ 1kHz" bitsF32_3 FEATURES).2.2 =
      [(.Global 0x01, bitsF32_100), (.SBX 0x09, bitsF32_100), (.SBX 0x10, bitsF32_3)] ∧
    (get_feature (set_slider "EQ 1kHz" bitsF32_3 FEATURES).2.1 "EQ 1kHz").map
        Feature.value = some (.Slider bitsF32_3) ∧
    (get_feature (set_slider "EQ 1kHz" bitsF32_3 FEATURES).2.1 "Equalizer").map
        Feature.value = some (.Toggle true) ∧
    (get_feature (set_slider "EQ 1kHz" bitsF32_3 FEATURES).2.1 "SBX").map
        Feature.value = some (.Toggle true) := by
  refine ⟨?_, rfl, rfl, rfl, rfl, rfl⟩
  intro bSbx bScout bSur bDia bSv bCry bEq bBass sv f hf
  simp only [FEATURES, List.mem_cons, List.not_mem_nil, or_false] at hf
  rcases hf with rfl | rfl | rfl | rfl | rfl | rfl | rfl | rfl | rfl | rfl | rfl |
    rfl | rfl | rfl | rfl | rfl | rfl | rfl | rfl | rfl | rfl | rfl | rfl | rfl | rfl
  · rfl
  · rfl
  · cases bSbx <;> rfl
  · intro v; cases bSbx <;> cases bSur <;> rfl
  · cases bSbx <;> rfl
  · intro v; cases bSbx <;> cases bDia <;> rfl
  · cases bSbx <;> rfl
  · intro v; cases bSbx <;> cases bSv <;> rfl
  · intro v; cases bSbx <;> cases bSv <;> rfl
  · cases bSbx <;> rfl
  · intro v; cases bSbx <;> cases bCry <;> rfl
  · cases bSbx <;> rfl
  · intro v; cases bSbx <;> cases bEq <;> rfl
  · intro v; cases bSbx <;> cases bEq <;> rfl
  · intro v; cases bSbx <;> cases bEq <;> rfl
  · intro v; cases bSbx <;> cases bEq <;> rfl
  · intro v; cases bSbx <;> cases bEq <;> rfl
  · intro v; cases bSbx <;> cases bEq <;> rfl
  · intro v; cases bSbx <;> cases bEq <;> rfl
  · intro v; cases bSbx <;> cases bEq <;> rfl
  · intro v; cases bSbx <;> cases bEq <;> rfl
  · intro v; cases bSbx <;> cases bEq <;> rfl
  · intro v; cases bSbx <;> cases bEq <;> rfl
  · cases bSbx <;> rfl
  · intro v; cases bSbx <;> cases bBass <;> rfl

/-- Witness for C4: the general statement applied at the 1 kHz EQ band,
the all-off registry state and value 3.0. -/
theorem claim_C4_witness :
    set_slider "EQ 1kHz" bitsF32_3 FEATURES =
      (.ok (),
       setValue (enableState FEATURES ["SBX", "Equalizer"]) "EQ 1kHz"
         (.Slider bitsF32_3),
       enableEvents FEATURES ["SBX", "Equalizer"] ++ [(.SBX 0x10, bitsF32_3)]) :=
  (claim_C4.1 false false false false false false false false (fun _ => 0)
    ⟨"EQ 1kHz", .SBX 0x10, .Slider 0, some ["SBX", "Equalizer"]⟩ (by decide)) bitsF32_3

set_option maxHeartbeats 40000000 in
/-- C10: implicit off-cascade, over every toggle of the registry and every
cache state: a managed set of a toggle to off first recursively sets to off
every dependent toggle whose cached value is on, in registry order, before
the target's own off write is transmitted, leaving those dependents and the
target cached off; an argument-free set on a toggle cached on takes the same
path.  (The spec's managed-set steps prescribe only a cache refresh of
dependents; the cascade is behavior of the code.) -/
theorem claim_C10 :
    ∀ (bSbx bScout bSur bDia bSv bCry bEq bBass : Bool) (sv : Nat → Nat),
      ∀ f ∈ FEATURES,
        C10Prop (mkState bSbx bScout bSur bDia bSv bCry bEq bBass sv) f := by
  intro bSbx bScout bSur bDia bSv bCry bEq bBass sv f hf
  simp only [FEATURES, List.mem_cons, List.not_mem_nil, or_false] at hf
  rcases hf with rfl | rfl | rfl | rfl | rfl | rfl | rfl | rfl | rfl | rfl | rfl |
    rfl | rfl | rfl | rfl | rfl | rfl | rfl | rfl | rfl | rfl | rfl | rfl | rfl | rfl
  · constructor
    · cases bSur <;> cases bDia <;> cases bSv <;> cases bCry <;> cases bEq <;>
        cases bBass <;> rfl
    · intro h
      cases bSbx
      · exact Bool.noConfusion h
      · cases bSur <;> cases bDia <;> cases bSv <;> cases bCry <;> cases bEq <;>
          cases bBass <;> rfl
  · exact ⟨rfl, fun h => by cases bScout <;> first | exact Bool.noConfusion h | rfl⟩
  · exact ⟨rfl, fun h => by cases bSur <;> first | exact Bool.noConfusion h | rfl⟩
  · trivial
  · exact ⟨rfl, fun h => by cases bDia <;> first | exact Bool.noConfusion h | rfl⟩
  · trivial
  · exact ⟨rfl, fun h => by cases bSv <;> first | exact Bool.noConfusion h | rfl⟩
  · trivial
  · trivial
  · exact ⟨rfl, fun h => by cases bCry <;> first | exact Bool.noConfusion h | rfl⟩
  · trivial
  · exact ⟨rfl, fun h => by cases bEq <;> first | exact Bool.noConfusion h | rfl⟩
  · trivial
  · trivial
  · trivial
  · trivial
  · trivial
  · trivial
  · trivial
  · trivial
  · trivial
  · trivial
  · trivial
  · exact ⟨rfl, fun h => by cases bBass <;> first | exact Bool.noConfusion h | rfl⟩
  · trivial

/-- Witness for C10: disabling the master toggle with the surround toggle on
first writes surround off, then the master off, and both end cached off. -/
theorem claim_C10_witness :
    set_feature "SBX" (some false)
        (mkState true false true false false false false false (fun _ => 0)) =
      (.ok (),
       setValue
         (setValue (mkState true false true false false false false false (fun _ => 0))
           "Surround" (.Toggle false))
         "SBX" (.Toggle false),
       [(.SBX 0x00, 0), (.Global 0x01, 0)]) :=
  (claim_C10 true false true false false false false false (fun _ => 0)
    ⟨"SBX", .Global 0x01, .Toggle false, none⟩ (by decide)).1

/-- C9: managed-set error results with state unchanged.  A set (toggle-style
or slider-style) on a name absent from the registry fails with NotFound; a
toggle-style set on a feature whose value kind is a slider fails with
InvalidInput; a slider-style set on a toggle fails with InvalidInput; in all
four cases the feature list is returned unchanged and the write-event list
is empty (no packet is transmitted, no cached value modified). -/
theorem claim_C9 :
    (∀ (st : List Feature) (name : String) (value : Option Bool),
        get_feature st name = none →
        set_feature name value st = (.error .NotFound, st, [])) ∧
    (∀ (st : List Feature) (name : String) (w : Nat),
        get_feature st name = none →
        set_slider name w st = (.error .NotFound, st, [])) ∧
    (∀ (st : List Feature) (name : String) (value : Option Bool)
        (f : Feature) (bits : Nat),
        get_feature st name = some f → f.value = .Slider bits →
        set_feature name value st = (.error .InvalidInput, st, [])) ∧
    (∀ (st : List Feature) (name : String) (w : Nat) (f : Feature) (b : Bool),
        get_feature st name = some f → f.value = .Toggle b →
        set_slider name w st = (.error .InvalidInput, st, [])) := by
  refine ⟨?_, ?_, ?_, ?_⟩
  · intro st name value h
    simp [set_feature, engineFuel, set_feature_rec, h]
  · intro st name w h
    simp [set_slider, h]
  · intro st name value f bits h hv
    simp [set_feature, engineFuel, set_feature_rec, h, hv]
  · intro st name w f b h hv
    simp [set_slider, h, hv]

/-- Witness for C9: a name outside the registry yields NotFound for both
accessors, and the wrong accessor kind yields InvalidInput for both, all
leaving the registry untouched with no event. -/
theorem claim_C9_witness :
    set_feature "No Such Feature" (some true) FEATURES =
      (.error .NotFound, FEATURES, []) ∧
    set_slider "No Such Feature" 7 FEATURES = (.error .NotFound, FEATURES, []) ∧
    set_feature "Surround Slider" (some true) FEATURES =
      (.error .InvalidInput, FEATURES, []) ∧
    set_slider "Surround" 7 FEATURES = (.error .InvalidInput, FEATURES, []) :=
  ⟨claim_C9.1 FEATURES "No Such Feature" (some true) rfl,
   claim_C9.2.1 FEATURES "No Such Feature" 7 rfl,
   claim_C9.2.2.1 FEATURES "Surround Slider" (some true)
     ⟨"Surround Slider", .SBX 0x01, .Slider 0, some ["SBX", "Surround"]⟩ 0 rfl rfl,
   claim_C9.2.2.2 FEATURES "Surround" 7
     ⟨"Surround", .SBX 0x00, .Toggle false, some ["SBX"]⟩ false rfl rfl⟩
